import Mathlib

/-!
# Verification of the ML task-runner worker loop

Shallow embedding of `src/ml_task_runner.py` (class `MLTaskRunner`): the
task-acquisition loop with exponential backoff (`get_classifier`), the
per-task pipeline body (`run`), and the signal-driven shutdown handler
(`shutdown`).  External effects (coordination-client RPC calls, notebook
stage executions, log lines, process exit) are recorded as an event trace;
the outcomes of the external calls (success or raised exception) and the
sequence of `get_classifiers` responses are supplied as oracle parameters,
so every interleaving of computation success, computation failure and
signal delivery corresponds to a choice of oracle values.
-/

namespace MLWorkers

/-- A classifier task as used by the runner: the dict fields the code reads
are `id` (used in log messages), `genes` (a list of integers) and
`diseases` (a list of strings). -/
structure Task where
  id : String
  genes : List Int
  diseases : List String
deriving DecidableEq, Repr

/-- Observable events of one process run: coordination-client calls
(`get_classifiers` poll, `upload_notebook`, `fail_classifier`,
`release_classifier`), notebook stage executions, and the log lines the
code prints. -/
inductive Event where
  /-- Invocation of the download notebook, via run_notebook applied to
  the name 1.download. -/
  | downloadRun
  /-- Exception from the download notebook; the failure is logged. -/
  | downloadFailed
  /-- Completed run of the computation notebook (name
  2.mutation-classifier), producing an output path. -/
  | computeRun (outputPath : String)
  /-- Exception from the computation notebook. -/
  | computeFailed
  /-- Invocation of upload_notebook on the coordination client. -/
  | upload (t : Task)
  /-- Invocation of fail_classifier on the coordination client. -/
  | markFailed (t : Task)
  /-- Invocation of release_classifier on the coordination client. -/
  | release (t : Task)
  /-- Log line of the None branch: no classifier found, sleeping 5 seconds. -/
  | logNoClassifier
  /-- Log line announcing the start of a classifier, with its id. -/
  | logStarting (id : String)
  /-- Log line reporting the task complete. -/
  | logTaskComplete
  /-- Log line reporting a failure to complete the classifier. -/
  | logFailedClassifier
  /-- Log line reporting the task with the given id released. -/
  | logReleased (id : String)
  /-- Log line reporting an error while releasing the classifier with the
  given id. -/
  | logReleaseError (id : String)
  /-- Log line reporting that no classifier was held at shutdown. -/
  | logNoRelease
  /-- Log line of the finally block of shutdown. -/
  | logShuttingDown
deriving DecidableEq, Repr

/-- Terminal coordination-client operations for task `t`:
`upload_notebook`, `fail_classifier` or `release_classifier` applied to `t`. -/
def Event.isTerminalFor (t : Task) : Event → Bool
  | .upload u => u = t
  | .markFailed u => u = t
  | .release u => u = t
  | _ => false

/-- Any of the three terminal coordination-client operations, for any task. -/
def Event.isTerminal : Event → Bool
  | .upload _ => true
  | .markFailed _ => true
  | .release _ => true
  | _ => false

/-- Predicate for a release_classifier call applied to task `t`. -/
def Event.isReleaseOf (t : Task) : Event → Bool
  | .release u => u = t
  | _ => false

/-- Mutable worker state: the class/instance attributes `shutting_down`,
`download_complete` and `self.classifier`, plus the two environment
variables `os.environ['gene_ids']` and `os.environ['disease_acronyms']`
set before the computation stage. -/
structure WState where
  shutting_down : Bool
  download_complete : Bool
  classifier : Option Task
  env_gene_ids : Option String
  env_disease_acronyms : Option String
deriving DecidableEq, Repr

/-- The state at process start: `shutting_down = False`,
`download_complete = False`, `self.classifier = None`, neither environment
variable set. -/
def initState : WState :=
  { shutting_down := false
    download_complete := false
    classifier := none
    env_gene_ids := none
    env_disease_acronyms := none }

/-! ## Task acquisition: `get_classifier` and its backoff decorator -/

/-- The body of `get_classifier`, iterated by the `backoff.on_predicate`
decorator: each attempt consumes one `get_classifiers` response; an empty
response (`None` result, falsey) triggers a retry, a non-empty response
returns its first element (`classifiers[0]`).  The argument lists the
successive responses observed; a result of `none` means the call has not
returned within those responses (the decorator has no `max_tries`, so in
the running process the call simply keeps polling). -/
def get_classifier : List (List Task) → Option Task
  | [] => none
  | r :: rs =>
    match r with
    | [] => get_classifier rs
    | t :: _ => some t

/-- Number of empty responses before the first non-empty one: the number
of backoff sleeps taken inside one `get_classifier` call. -/
def emptiesBefore : List (List Task) → Nat
  | [] => 0
  | r :: rs =>
    match r with
    | [] => emptiesBefore rs + 1
    | _ :: _ => 0

/-- The `backoff.expo(factor=2, base=2, max_value=30)` generator used by the
`@backoff.on_predicate` decorator on `get_classifier`: starting from internal
counter `n`, it yields `factor * base ** n` while that is below `max_value`
(incrementing `n`), and yields `max_value` (leaving `n` unchanged) once the
exponential would reach it.  `expoFrom n k` lists the first `k` yields. -/
def expoFrom : Nat → Nat → List ℚ
  | _, 0 => []
  | n, k + 1 =>
    let a : ℚ := 2 * 2 ^ n
    if a < 30 then a :: expoFrom (n + 1) k else 30 :: expoFrom n k

/-- The jitter function backoff.full_jitter: the actual sleep is a
uniform random draw between 0 and the computed interval `v`; the draw is
modelled as `u * v` with `u ∈ [0, 1]` supplied by the randomness
oracle. -/
def full_jitter (u v : ℚ) : ℚ := u * v

/-- The sleeps one `get_classifier` invocation performs, given the response
sequence `rs` and the randomness oracle `u`: one jittered draw from the
fresh `expo` generator per empty response before the first non-empty one.
Each invocation of `get_classifier` builds its generator anew
(`expoFrom 0`), so the backoff sequence restarts on every call. -/
def acquireSleeps (u : Nat → ℚ) (rs : List (List Task)) : List ℚ :=
  (List.range (emptiesBefore rs)).map
    (fun j => full_jitter (u j) ((expoFrom 0 (emptiesBefore rs)).getD j 0))

/-! ## Shutdown handler: `MLTaskRunner.shutdown` -/

/-- State effect of the `shutdown` handler: its first statement sets
`self.shutting_down = True`; it never clears `self.classifier`. -/
def shutdownState (s : WState) : WState := { s with shutting_down := true }

/-- Event trace of one `shutdown` invocation on state `s`; `releaseOk`
says whether the `release_classifier` RPC succeeds or raises.  If a task
is held it is released (on error, the exception is caught and logged with
the task id); otherwise `'No classifier to release.'`; the `finally`
block logs `'Shutting down...'`. -/
def shutdownEvents (s : WState) (releaseOk : Bool) : List Event :=
  match s.classifier with
  | some t =>
    if releaseOk then
      [.release t, .logReleased t.id, .logShuttingDown]
    else
      [.release t, .logReleaseError t.id, .logShuttingDown]
  | none => [.logNoRelease, .logShuttingDown]

/-- One full `shutdown` invocation: resulting state, event trace and the
process exit status — the `finally` block always runs `sys.exit(0)`. -/
def shutdownRun (s : WState) (releaseOk : Bool) : WState × List Event × Nat :=
  (shutdownState s, shutdownEvents s releaseOk, 0)

/-! ## The main loop: `MLTaskRunner.run` -/

/-- Python `'-'.join(xs)`. -/
def pyJoin (sep : String) (xs : List String) : String := String.intercalate sep xs

/-- Per-iteration oracle: the `get_classifiers` responses this iteration's
`get_classifier` call observes, and the success/raise outcome of each
external effect the iteration may perform. -/
structure IterOracle where
  responses : List (List Task)
  /-- Whether the download notebook completes (true) or raises (false). -/
  downloadOk : Bool
  /-- Whether the computation notebook completes (true) or raises (false). -/
  computeOk : Bool
  /-- The output path returned by a completed computation stage. -/
  outputPath : String
  /-- Whether upload_notebook returns (true) or raises (false). -/
  uploadOk : Bool
  /-- Whether fail_classifier returns (true) or raises (false). -/
  failOk : Bool
  /-- Whether release_classifier returns (true) or raises (false), for
  the shutdown triggered by a download failure self-delivering SIGTERM. -/
  releaseOk : Bool
deriving DecidableEq, Repr

/-- How one iteration of the `while` loop ends. -/
inductive IterKind where
  /-- the `while not self.shutting_down` test was false: `run` returns. -/
  | stopped
  /-- control reaches the bottom of the loop body and loops again. -/
  | looped
  /-- the process exited with the given status (download failure path:
  `os.kill(os.getpid(), signal.SIGTERM)` runs the `shutdown` handler,
  whose `sys.exit(0)` propagates as `SystemExit` past every
  `except Exception`). -/
  | exited (code : Nat)
  /-- an exception propagated out of `run` uncaught
  (`fail_classifier` raising inside the `except` clause). -/
  | crashed
deriving DecidableEq, Repr

/-- Lines 80–99 of `run`, reached with held task `t` after the download
guard: sets `os.environ['gene_ids']` and `os.environ['disease_acronyms']`
from the task's `genes` and `diseases`, then runs the computation
notebook; on success uploads the output; on any exception from the
computation stage or the upload, logs and calls `fail_classifier` — whose
own exception, if any, propagates out uncaught.  `acc` is the event trace
of the iteration so far. -/
def runIterAfterDownload (s : WState) (t : Task) (o : IterOracle)
    (acc : List Event) : WState × List Event × IterKind :=
  let s2 : WState :=
    { s with
      env_gene_ids := some (pyJoin "-" (t.genes.map toString))
      env_disease_acronyms := some (pyJoin "-" t.diseases) }
  if o.computeOk then
    let ev := acc ++ [.computeRun o.outputPath, .upload t]
    if o.uploadOk then
      (s2, ev ++ [.logTaskComplete], .looped)
    else
      let ev2 := ev ++ [.logFailedClassifier, .markFailed t]
      if o.failOk then (s2, ev2, .looped) else (s2, ev2, .crashed)
  else
    let ev := acc ++ [.computeFailed, .logFailedClassifier, .markFailed t]
    if o.failOk then (s2, ev, .looped) else (s2, ev, .crashed)

/-- One iteration of `run`'s `while not self.shutting_down` loop.  If the
flag is set the loop stops.  Otherwise `self.classifier = self.get_classifier()`;
a `None` result takes the fixed 5-second sleep branch; with a task held,
the download notebook runs unless `download_complete` is already set (a
download failure logs and self-delivers `SIGTERM`, running the `shutdown`
handler and exiting), after which the environment is populated and the
computation/upload/fail sequence of `runIterAfterDownload` runs.  Note the
code never resets `self.classifier` to `None` inside the loop. -/
def runIter (s : WState) (o : IterOracle) : WState × List Event × IterKind :=
  if s.shutting_down then
    (s, [], .stopped)
  else
    let r := get_classifier o.responses
    let s1 : WState := { s with classifier := r }
    match r with
    | none => (s1, [.logNoClassifier], .looped)
    | some t =>
      let ev0 : List Event := [.logStarting t.id]
      if s1.download_complete then
        runIterAfterDownload s1 t o ev0
      else if o.downloadOk then
        runIterAfterDownload { s1 with download_complete := true } t o
          (ev0 ++ [.downloadRun])
      else
        let sh := shutdownRun s1 o.releaseOk
        (sh.1, ev0 ++ [.downloadRun, .downloadFailed] ++ sh.2.1, .exited sh.2.2)

/-- Runs successive loop iterations with the given oracles, stopping early
when an iteration exits, crashes or observes the stop flag; running out of
oracles leaves the loop still running (`looped`), with no signal delivered. -/
def runLoop : WState → List IterOracle → WState × List Event × IterKind
  | s, [] => (s, [], .looped)
  | s, o :: os =>
    let (s1, ev, k) := runIter s o
    match k with
    | .looped =>
      let (s2, ev2, k2) := runLoop s1 os
      (s2, ev ++ ev2, k2)
    | k => (s1, ev, k)

/-- A process run in which a termination signal is delivered at the top of
the loop, after the given iterations have run from process start: the
`shutdown` handler fires on the state the loop left behind and the process
exits with its status. -/
def runThenSignal (os : List IterOracle) (releaseOk : Bool) :
    WState × List Event × Nat :=
  let fin := runLoop initState os
  let sh := shutdownRun fin.1 releaseOk
  (sh.1, fin.2.1 ++ sh.2.1, sh.2.2)

/-- Following the spec's words, as the refinement target for the claim
about stop-flag polling: an acquisition loop that checks the process stop
flag between successive polling attempts and returns control to its caller
early (without a task) once a shutdown has been requested.  This is what
the spec describes; `get_classifier` is what the code does. -/
def acquireCheckingStop (stop : Bool) : List (List Task) → Option Task
  | [] => none
  | r :: rs =>
    match r with
    | [] => if stop then none else acquireCheckingStop stop rs
    | t :: _ => some t

/-! ## Concrete sample data -/

/-- The sample task of the spec's scenario:
`{id: "c1", genes:[7157], diseases:["ACC"]}`. -/
def t0 : Task := ⟨"c1", [7157], ["ACC"]⟩

/-- Oracle for an iteration where everything succeeds: one non-empty
response `[t0]`, download, computation and upload all succeed. -/
def oUp : IterOracle := ⟨[[t0]], true, true, "out.ipynb", true, true, true⟩

/-- Oracle for an iteration where the computation stage raises and
`fail_classifier` succeeds. -/
def oFail : IterOracle := ⟨[[t0]], true, false, "out.ipynb", true, true, true⟩

/-- Oracle for an iteration where the computation stage raises and then
`fail_classifier` itself raises. -/
def oCrash : IterOracle := ⟨[[t0]], true, false, "out.ipynb", true, false, true⟩

/-- Oracle for the spec's scenario: `get_classifiers` returns `[]` twice,
then `[t0]`; everything succeeds. -/
def oScenario : IterOracle :=
  ⟨[[], [], [t0]], true, true, "out.ipynb", true, true, true⟩

/-- A state in which task `t0` is held. -/
def sHeld : WState := { initState with classifier := some t0 }

/-! ## Helper lemmas about the embedding -/

/-- Number of `run_notebook('1.download')` invocations recorded in a trace. -/
def countDownloads (ev : List Event) : Nat :=
  ev.countP (fun e => decide (e = Event.downloadRun))

theorem runIterAfterDownload_state (s : WState) (t : Task) (o : IterOracle)
    (acc : List Event) :
    (runIterAfterDownload s t o acc).1 =
      { s with
        env_gene_ids := some (pyJoin "-" (t.genes.map toString))
        env_disease_acronyms := some (pyJoin "-" t.diseases) } := by
  rcases hc : o.computeOk <;> rcases hu : o.uploadOk <;> rcases hf : o.failOk <;>
    simp [runIterAfterDownload, hc, hu, hf]

theorem countDownloads_runIterAfterDownload (s : WState) (t : Task)
    (o : IterOracle) (acc : List Event) :
    countDownloads (runIterAfterDownload s t o acc).2.1 = countDownloads acc := by
  rcases hc : o.computeOk <;> rcases hu : o.uploadOk <;> rcases hf : o.failOk <;>
    simp [runIterAfterDownload, countDownloads, hc, hu, hf,
      List.countP_append, List.countP_cons]

theorem runIter_stopped (s : WState) (o : IterOracle)
    (hs : s.shutting_down = true) :
    runIter s o = (s, [], IterKind.stopped) := by
  simp [runIter, hs]

theorem runIter_none (s : WState) (o : IterOracle)
    (hs : s.shutting_down = false)
    (hr : get_classifier o.responses = none) :
    runIter s o =
      ({ s with classifier := none }, [Event.logNoClassifier], IterKind.looped) := by
  simp [runIter, hs, hr]

theorem runIter_eq_afterDownload_of_complete (s : WState) (o : IterOracle)
    (t : Task) (hs : s.shutting_down = false)
    (hr : get_classifier o.responses = some t)
    (h : s.download_complete = true) :
    runIter s o =
      runIterAfterDownload { s with classifier := some t } t o
        [Event.logStarting t.id] := by
  simp [runIter, hs, hr, h]

theorem runIter_eq_afterDownload_of_downloadOk (s : WState) (o : IterOracle)
    (t : Task) (hs : s.shutting_down = false)
    (hr : get_classifier o.responses = some t)
    (h : s.download_complete = false) (hd : o.downloadOk = true) :
    runIter s o =
      runIterAfterDownload { s with classifier := some t, download_complete := true }
        t o [Event.logStarting t.id, Event.downloadRun] := by
  simp [runIter, hs, hr, h, hd]

theorem runIter_eq_shutdown_of_downloadFail (s : WState) (o : IterOracle)
    (t : Task) (hs : s.shutting_down = false)
    (hr : get_classifier o.responses = some t)
    (h : s.download_complete = false) (hd : o.downloadOk = false) :
    runIter s o =
      (shutdownState { s with classifier := some t },
       [Event.logStarting t.id, Event.downloadRun, Event.downloadFailed] ++
         shutdownEvents { s with classifier := some t } o.releaseOk,
       IterKind.exited 0) := by
  simp [runIter, hs, hr, h, hd, shutdownRun]

theorem countDownloads_append (a b : List Event) :
    countDownloads (a ++ b) = countDownloads a + countDownloads b := by
  simp [countDownloads, List.countP_append]

theorem countDownloads_shutdownEvents (s : WState) (releaseOk : Bool) :
    countDownloads (shutdownEvents s releaseOk) = 0 := by
  rcases hc : s.classifier with _ | t <;> rcases releaseOk <;>
    simp [shutdownEvents, hc, countDownloads]

theorem countDownloads_runIter_of_complete (s : WState) (o : IterOracle)
    (h : s.download_complete = true) :
    countDownloads (runIter s o).2.1 = 0 ∧
    (runIter s o).1.download_complete = true := by
  rcases hs : s.shutting_down
  · rcases hr : get_classifier o.responses with _ | t
    · rw [runIter_none s o hs hr]
      simp [countDownloads, h]
    · rw [runIter_eq_afterDownload_of_complete s o t hs hr h,
        countDownloads_runIterAfterDownload, runIterAfterDownload_state]
      simp [countDownloads, h]
  · rw [runIter_stopped s o hs]
    simp [countDownloads, h]

theorem runIter_download_cases (s : WState) (o : IterOracle)
    (h : s.download_complete = false) :
    (countDownloads (runIter s o).2.1 = 0 ∧
      (runIter s o).1.download_complete = false) ∨
    (countDownloads (runIter s o).2.1 ≤ 1 ∧
      (runIter s o).1.download_complete = true) ∨
    (countDownloads (runIter s o).2.1 ≤ 1 ∧
      (runIter s o).2.2 ≠ IterKind.looped) := by
  rcases hs : s.shutting_down
  · rcases hr : get_classifier o.responses with _ | t
    · left
      rw [runIter_none s o hs hr]
      simp [countDownloads, h]
    · rcases hd : o.downloadOk
      · right; right
        rw [runIter_eq_shutdown_of_downloadFail s o t hs hr h hd]
        refine ⟨?_, by simp⟩
        dsimp only
        rw [countDownloads_append, countDownloads_shutdownEvents]
        simp [countDownloads]
      · right; left
        rw [runIter_eq_afterDownload_of_downloadOk s o t hs hr h hd,
          countDownloads_runIterAfterDownload, runIterAfterDownload_state]
        simp [countDownloads]
  · left
    rw [runIter_stopped s o hs]
    simp [countDownloads, h]

theorem countDownloads_runIter_le (s : WState) (o : IterOracle) :
    countDownloads (runIter s o).2.1 ≤ 1 := by
  rcases hf : s.download_complete
  · rcases runIter_download_cases s o hf with ⟨h1, _⟩ | ⟨h1, _⟩ | ⟨h1, _⟩ <;> omega
  · have := (countDownloads_runIter_of_complete s o hf).1
    omega

theorem countDownloads_runLoop_append (s : WState) (o : IterOracle)
    (os : List IterOracle) (hk : (runIter s o).2.2 = IterKind.looped) :
    countDownloads (runLoop s (o :: os)).2.1 =
      countDownloads (runIter s o).2.1 +
        countDownloads (runLoop (runIter s o).1 os).2.1 := by
  simp only [runLoop, hk]
  simp [countDownloads, List.countP_append]

theorem countDownloads_runLoop_stop (s : WState) (o : IterOracle)
    (os : List IterOracle) (hk : (runIter s o).2.2 ≠ IterKind.looped) :
    countDownloads (runLoop s (o :: os)).2.1 =
      countDownloads (runIter s o).2.1 := by
  rcases hk2 : (runIter s o).2.2
  case looped => exact absurd hk2 hk
  all_goals simp only [runLoop, hk2]

theorem countDownloads_runLoop_of_complete (s : WState) (os : List IterOracle)
    (h : s.download_complete = true) :
    countDownloads (runLoop s os).2.1 = 0 := by
  induction os generalizing s with
  | nil => simp [runLoop, countDownloads]
  | cons o os ih =>
    obtain ⟨h1, h2⟩ := countDownloads_runIter_of_complete s o h
    by_cases hk : (runIter s o).2.2 = IterKind.looped
    · rw [countDownloads_runLoop_append s o os hk, h1, ih _ h2]
    · rw [countDownloads_runLoop_stop s o os hk, h1]

theorem countDownloads_runLoop_le (s : WState) (os : List IterOracle) :
    countDownloads (runLoop s os).2.1 ≤ 1 := by
  induction os generalizing s with
  | nil => simp [runLoop, countDownloads]
  | cons o os ih =>
    by_cases hk : (runIter s o).2.2 = IterKind.looped
    · rw [countDownloads_runLoop_append s o os hk]
      rcases hf : s.download_complete
      · rcases runIter_download_cases s o hf with ⟨h1, h2⟩ | ⟨h1, h2⟩ | ⟨h1, h2⟩
        · have := ih (runIter s o).1
          omega
        · have := countDownloads_runLoop_of_complete (runIter s o).1 os h2
          omega
        · exact absurd hk h2
      · have h0 := (countDownloads_runIter_of_complete s o hf).1
        have := countDownloads_runLoop_of_complete (runIter s o).1 os
          (countDownloads_runIter_of_complete s o hf).2
        omega
    · rw [countDownloads_runLoop_stop s o os hk]
      exact countDownloads_runIter_le s o

theorem downloadOk_of_incomplete (s : WState) (o : IterOracle)
    (hd : s.download_complete = true ∨ o.downloadOk = true)
    (hcompl : s.download_complete = false) : o.downloadOk = true := by
  rcases hd with hd | hd
  · rw [hcompl] at hd
    exact absurd hd (by simp)
  · exact hd

theorem get_classifier_replicate (i : Nat) (t : Task) (ts : List Task)
    (rest : List (List Task)) :
    get_classifier (List.replicate i [] ++ (t :: ts) :: rest) = some t := by
  induction i with
  | zero => simp [get_classifier]
  | succ n ih => simpa [List.replicate_succ, get_classifier] using ih

theorem emptiesBefore_replicate (i : Nat) (t : Task) (ts : List Task)
    (rest : List (List Task)) :
    emptiesBefore (List.replicate i [] ++ (t :: ts) :: rest) = i := by
  induction i with
  | zero => simp [emptiesBefore]
  | succ n ih => simp [List.replicate_succ, emptiesBefore, ih]

theorem expoFrom_getD (k n j : Nat) (hj : j < k) :
    (expoFrom n k).getD j 0 = min (2 * 2 ^ (n + j) : ℚ) 30 := by
  induction k generalizing n j with
  | zero => omega
  | succ m ih =>
    rcases j with _ | j
    · simp only [expoFrom]
      split
      case isTrue h =>
        simpa using (min_eq_left (le_of_lt h)).symm
      case isFalse h =>
        simpa using (min_eq_right (le_of_not_lt h)).symm
    · have hj2 : j < m := by omega
      simp only [expoFrom]
      split
      case isTrue h =>
        rw [List.getD_cons_succ, ih (n + 1) j hj2,
          show n + 1 + j = n + (j + 1) by omega]
      case isFalse h =>
        rw [List.getD_cons_succ, ih n j hj2]
        have h30 : (30 : ℚ) ≤ 2 * 2 ^ n := le_of_not_lt h
        have hmono : ∀ d : Nat, (30 : ℚ) ≤ 2 * 2 ^ (n + d) := by
          intro d
          refine le_trans h30 ?_
          have : (2 : ℚ) ^ n ≤ 2 ^ (n + d) :=
            pow_le_pow_right₀ one_le_two (Nat.le_add_right n d)
          linarith
        rw [min_eq_right (hmono j), min_eq_right (hmono (j + 1))]

theorem acquireSleeps_length (u : Nat → ℚ) (rs : List (List Task)) :
    (acquireSleeps u rs).length = emptiesBefore rs := by
  simp [acquireSleeps]

theorem acquireSleeps_getD (u : Nat → ℚ) (rs : List (List Task)) (j : Nat)
    (hj : j < emptiesBefore rs) :
    (acquireSleeps u rs).getD j 0 =
      full_jitter (u j) ((expoFrom 0 (emptiesBefore rs)).getD j 0) := by
  simp [acquireSleeps, List.getD_eq_getElem?_getD, List.getElem?_map,
    List.getElem?_range, hj]

/-! ## Claim theorems -/

/-- C5: the preparation stage (the `'1.download'` notebook) is executed at
most once over the entire process lifetime, for every number of tasks
processed and every sequence of task outcomes; once `download_complete` is
set, no further execution of it can occur. -/
theorem c5_download_at_most_once (os : List IterOracle) :
    countDownloads (runLoop initState os).2.1 ≤ 1 ∧
    (∀ releaseOk : Bool,
      countDownloads (runThenSignal os releaseOk).2.1 ≤ 1) ∧
    ∀ s : WState, s.download_complete = true →
      countDownloads (runLoop s os).2.1 = 0 := by
  refine ⟨countDownloads_runLoop_le initState os, ?_,
    fun s h => countDownloads_runLoop_of_complete s os h⟩
  intro releaseOk
  have hsig : countDownloads (runThenSignal os releaseOk).2.1 =
      countDownloads (runLoop initState os).2.1 +
        countDownloads (shutdownEvents (runLoop initState os).1 releaseOk) := by
    simp only [runThenSignal, shutdownRun]
    exact countDownloads_append _ _
  rw [hsig, countDownloads_shutdownEvents]
  have := countDownloads_runLoop_le initState os
  omega

/-- Witness for C5 at a concrete run of two iterations. -/
theorem c5_download_at_most_once_witness :
    countDownloads (runLoop initState [oUp, oFail]).2.1 ≤ 1 ∧
    countDownloads (runThenSignal [oUp, oFail] true).2.1 ≤ 1 ∧
    countDownloads
      (runLoop { initState with download_complete := true } [oUp]).2.1 = 0 :=
  ⟨(c5_download_at_most_once [oUp, oFail]).1,
   (c5_download_at_most_once [oUp, oFail]).2.1 true,
   (c5_download_at_most_once [oUp]).2.2
     { initState with download_complete := true } rfl⟩

/-- C4: if a single termination signal is delivered while the held-task
reference is non-null, `release_classifier` is called with exactly that
held task exactly once and the process exits with status 0 — including
when the release call itself raises, in which case the error is caught,
logged with the task identity, and exit still occurs with status 0. -/
theorem c4_signal_releases_held_task (s : WState) (t : Task)
    (releaseOk : Bool) (h : s.classifier = some t) :
    (shutdownRun s releaseOk).2.1.countP (Event.isReleaseOf t) = 1 ∧
    Event.release t ∈ (shutdownRun s releaseOk).2.1 ∧
    (shutdownRun s releaseOk).2.2 = 0 ∧
    (releaseOk = false →
      Event.logReleaseError t.id ∈ (shutdownRun s releaseOk).2.1) := by
  rcases releaseOk <;>
    simp [shutdownRun, shutdownEvents, h, Event.isReleaseOf, List.countP_cons]

/-- Witness for C4: a signal arrives while `t0` is held and the release
call itself raises. -/
theorem c4_signal_releases_held_task_witness :
    (shutdownRun sHeld false).2.1.countP (Event.isReleaseOf t0) = 1 ∧
    Event.release t0 ∈ (shutdownRun sHeld false).2.1 ∧
    (shutdownRun sHeld false).2.2 = 0 ∧
    (false = false →
      Event.logReleaseError t0.id ∈ (shutdownRun sHeld false).2.1) :=
  c4_signal_releases_held_task sHeld t0 false rfl

/-- Number of terminal coordination-client calls in a trace. -/
def countTerminal (ev : List Event) : Nat := ev.countP Event.isTerminal

/-- C1 fails on the code: `self.classifier` is never cleared after a task
reaches `upload_notebook`, so a termination signal delivered after the
upload but before the next `get_classifier` assignment releases the
already-uploaded task — two terminal operations for one task. -/
theorem c1_counterexample :
    countTerminal (runThenSignal [oUp] true).2.1 = 2 ∧
    Event.upload t0 ∈ (runThenSignal [oUp] true).2.1 ∧
    Event.release t0 ∈ (runThenSignal [oUp] true).2.1 := by decide

/-- C1 amended: every claimed task receives at least one terminal
coordination-client invocation, every terminal invocation of the
iteration is for the claimed task, and when the upload call does not
raise, an iteration undisturbed by signals invokes exactly one terminal
operation for its task.  (The original claim's "never two" fails: a
signal arriving after completion releases the still-referenced task, and
an upload that raises is followed by `fail_classifier` on the same
task.) -/
theorem c1_amended_terminal_ops (s : WState) (o : IterOracle) (t : Task)
    (hs : s.shutting_down = false)
    (hr : get_classifier o.responses = some t) :
    1 ≤ countTerminal (runIter s o).2.1 ∧
    (o.uploadOk = true → countTerminal (runIter s o).2.1 = 1) ∧
    ∀ e ∈ (runIter s o).2.1, e.isTerminal = true → e.isTerminalFor t = true := by
  rcases hcompl : s.download_complete
  · rcases hd : o.downloadOk
    · rw [runIter_eq_shutdown_of_downloadFail s o t hs hr hcompl hd]
      rcases hrel : o.releaseOk <;>
        simp [shutdownEvents, countTerminal, Event.isTerminal,
          Event.isTerminalFor, List.countP_cons, List.countP_append]
    · rw [runIter_eq_afterDownload_of_downloadOk s o t hs hr hcompl hd]
      rcases hc : o.computeOk <;> rcases hu : o.uploadOk <;>
        rcases hf : o.failOk <;>
          simp [runIterAfterDownload, hc, hu, hf, countTerminal,
            Event.isTerminal, Event.isTerminalFor, List.countP_cons,
            List.countP_append]
  · rw [runIter_eq_afterDownload_of_complete s o t hs hr hcompl]
    rcases hc : o.computeOk <;> rcases hu : o.uploadOk <;>
      rcases hf : o.failOk <;>
        simp [runIterAfterDownload, hc, hu, hf, countTerminal,
          Event.isTerminal, Event.isTerminalFor, List.countP_cons,
          List.countP_append]

/-- Witness for C1's amended theorem at a fully successful iteration. -/
theorem c1_amended_terminal_ops_witness :
    1 ≤ countTerminal (runIter initState oUp).2.1 ∧
    (oUp.uploadOk = true → countTerminal (runIter initState oUp).2.1 = 1) ∧
    ∀ e ∈ (runIter initState oUp).2.1,
      e.isTerminal = true → e.isTerminalFor t0 = true :=
  c1_amended_terminal_ops initState oUp t0 rfl rfl

/-- C2 fails on the code: after a computation-stage failure,
`fail_classifier` is called with the held task, but `self.classifier` is
never set back to `None` — at the bottom of the loop (a point after the
failure and before the next `get_classifier` call begins) the held-task
reference still holds the failed task. -/
theorem c2_counterexample :
    Event.markFailed t0 ∈ (runIter initState oFail).2.1 ∧
    (runIter initState oFail).1.classifier = some t0 ∧
    (runIter initState oFail).2.2 = IterKind.looped := by decide

/-- C2 amended: if the computation stage raises, `fail_classifier` is
called with exactly that task, but the held-task reference is not
cleared — it retains the failed task until the next `get_classifier`
result is assigned. -/
theorem c2_amended_failure_report (s : WState) (o : IterOracle) (t : Task)
    (hs : s.shutting_down = false)
    (hr : get_classifier o.responses = some t)
    (hd : s.download_complete = true ∨ o.downloadOk = true)
    (hc : o.computeOk = false) :
    Event.markFailed t ∈ (runIter s o).2.1 ∧
    (∀ u : Task, Event.markFailed u ∈ (runIter s o).2.1 → u = t) ∧
    (runIter s o).1.classifier = some t := by
  rcases hcompl : s.download_complete
  · have hdl : o.downloadOk = true := by
      rcases hd with hd | hd
      · rw [hcompl] at hd; exact absurd hd (by simp)
      · exact hd
    rw [runIter_eq_afterDownload_of_downloadOk s o t hs hr hcompl hdl,
      runIterAfterDownload_state]
    rcases hf : o.failOk <;>
      simp [runIterAfterDownload, hc, hf]
  · rw [runIter_eq_afterDownload_of_complete s o t hs hr hcompl,
      runIterAfterDownload_state]
    rcases hf : o.failOk <;>
      simp [runIterAfterDownload, hc, hf]

/-- Witness for C2's amended theorem: a computation failure on `t0`. -/
theorem c2_amended_failure_report_witness :
    Event.markFailed t0 ∈ (runIter initState oFail).2.1 ∧
    (∀ u : Task, Event.markFailed u ∈ (runIter initState oFail).2.1 → u = t0) ∧
    (runIter initState oFail).1.classifier = some t0 :=
  c2_amended_failure_report initState oFail t0 rfl rfl (Or.inr rfl) rfl

/-- C3 fails on the code: `shutdown` has no one-shot guard and never
clears `self.classifier`, so a second signal delivered after the first
handler has begun (here: after it set the flag and released the task)
runs the whole handler again and invokes `release_classifier` a second
time for the same task. -/
theorem c3_counterexample :
    ((shutdownRun sHeld true).2.1 ++
        (shutdownRun (shutdownRun sHeld true).1 true).2.1).countP
      (Event.isReleaseOf t0) = 2 := by decide

/-- C3 amended: a second invocation of the shutdown handler while a task
is held does not crash — any release error is still caught and it still
exits with status 0 — but it is not guarded: it invokes
`release_classifier` again for the held task. -/
theorem c3_amended_no_oneshot_guard (s : WState) (t : Task) (r1 r2 : Bool)
    (h : s.classifier = some t) :
    (shutdownRun (shutdownRun s r1).1 r2).2.1.countP (Event.isReleaseOf t) = 1 ∧
    (shutdownRun (shutdownRun s r1).1 r2).2.2 = 0 := by
  rcases r2 <;>
    simp [shutdownRun, shutdownState, shutdownEvents, h, Event.isReleaseOf,
      List.countP_cons]

/-- Witness for C3's amended theorem: double signal while `t0` is held,
second release succeeding. -/
theorem c3_amended_no_oneshot_guard_witness :
    (shutdownRun (shutdownRun sHeld true).1 true).2.1.countP
      (Event.isReleaseOf t0) = 1 ∧
    (shutdownRun (shutdownRun sHeld true).1 true).2.2 = 0 :=
  c3_amended_no_oneshot_guard sHeld t0 true true rfl

/-- C7 fails on the code: an exception raised by `fail_classifier` inside
the `except` clause is not caught by anything in `run` — the processing
body raises to its caller and the process terminates outside the
signal-handling path. -/
theorem c7_counterexample :
    (runIter initState oCrash).2.2 = IterKind.crashed := by decide

/-- C7 amended: exceptions from the computation stage and from the
artifact upload are handled internally (reported via `fail_classifier`)
and the loop continues to the next acquisition cycle; but an exception
raised by the failure-reporting call itself propagates out of the
processing body uncaught. -/
theorem c7_amended_no_raise (s : WState) (o : IterOracle)
    (hf : o.failOk = true) :
    (runIter s o).2.2 ≠ IterKind.crashed ∧
    (s.shutting_down = false →
      ∀ t : Task, get_classifier o.responses = some t →
        (s.download_complete = true ∨ o.downloadOk = true) →
          o.computeOk = false → (runIter s o).2.2 = IterKind.looped) := by
  constructor
  · rcases hs : s.shutting_down
    · rcases hr : get_classifier o.responses with _ | t
      · rw [runIter_none s o hs hr]
        simp
      · rcases hcompl : s.download_complete
        · rcases hd : o.downloadOk
          · rw [runIter_eq_shutdown_of_downloadFail s o t hs hr hcompl hd]
            simp
          · rw [runIter_eq_afterDownload_of_downloadOk s o t hs hr hcompl hd]
            rcases hc : o.computeOk <;> rcases hu : o.uploadOk <;>
              simp [runIterAfterDownload, hc, hu, hf]
        · rw [runIter_eq_afterDownload_of_complete s o t hs hr hcompl]
          rcases hc : o.computeOk <;> rcases hu : o.uploadOk <;>
            simp [runIterAfterDownload, hc, hu, hf]
    · rw [runIter_stopped s o hs]
      simp
  · intro hs t hr hd hc
    rcases hcompl : s.download_complete
    · rw [runIter_eq_afterDownload_of_downloadOk s o t hs hr hcompl
        (downloadOk_of_incomplete s o hd hcompl)]
      simp [runIterAfterDownload, hc, hf]
    · rw [runIter_eq_afterDownload_of_complete s o t hs hr hcompl]
      simp [runIterAfterDownload, hc, hf]

/-- Witness for C7's amended theorem: a computation failure whose
`fail_classifier` call succeeds leaves the loop running. -/
theorem c7_amended_no_raise_witness :
    (runIter initState oFail).2.2 ≠ IterKind.crashed ∧
    (runIter initState oFail).2.2 = IterKind.looped :=
  ⟨(c7_amended_no_raise initState oFail rfl).1,
   (c7_amended_no_raise initState oFail rfl).2 rfl t0 rfl (Or.inr rfl) rfl⟩

/-- C8 fails on the code: `get_classifier` never consults the stop flag.
After an empty response it polls again unconditionally and returns the
task of the second response, where the spec's flag-checking acquisition
loop (`acquireCheckingStop`, with a shutdown requested) would have
returned control early after the first empty response. -/
theorem c8_counterexample :
    get_classifier [[], [t0]] = some t0 ∧
    acquireCheckingStop true [[], [t0]] = none := by decide

/-- C8 amended: the process stop flag is checked only by `run`'s `while`
loop between iterations; `get_classifier` itself does not consult it —
its retry behaviour on an empty response is the same whatever the flag
(during an in-poll shutdown it is the signal handler's `sys.exit(0)`
that stops the process, not an early return). -/
theorem c8_amended_stop_flag_in_loop_only :
    (∀ rs : List (List Task), get_classifier ([] :: rs) = get_classifier rs) ∧
    (∀ (s : WState) (o : IterOracle), s.shutting_down = true →
      runIter s o = (s, [], IterKind.stopped)) :=
  ⟨fun _ => rfl, fun s o hs => runIter_stopped s o hs⟩

/-- Witness for C8's amended theorem at concrete inputs. -/
theorem c8_amended_stop_flag_in_loop_only_witness :
    get_classifier ([] :: [[t0]]) = get_classifier [[t0]] ∧
    runIter (shutdownState initState) oUp =
      (shutdownState initState, [], IterKind.stopped) :=
  ⟨c8_amended_stop_flag_in_loop_only.1 [[t0]],
   c8_amended_stop_flag_in_loop_only.2 (shutdownState initState) oUp rfl⟩

/-- C9: `get_classifier` retries until a non-empty response arrives and
returns its first task — it never hands `None` to the main loop, so the
loop's `None` branch (`logNoClassifier`, the fixed 5-second sleep) is
never taken and the held-task reference is assigned the returned task. -/
theorem c9_acquire_never_none (i : Nat) (t : Task) (ts : List Task)
    (rest : List (List Task)) (s : WState) (o : IterOracle)
    (hresp : o.responses = List.replicate i [] ++ (t :: ts) :: rest)
    (hs : s.shutting_down = false) :
    get_classifier o.responses = some t ∧
    Event.logNoClassifier ∉ (runIter s o).2.1 ∧
    (runIter s o).1.classifier = some t := by
  have hr : get_classifier o.responses = some t := by
    rw [hresp]
    exact get_classifier_replicate i t ts rest
  refine ⟨hr, ?_, ?_⟩
  · rcases hcompl : s.download_complete
    · rcases hd : o.downloadOk
      · rw [runIter_eq_shutdown_of_downloadFail s o t hs hr hcompl hd]
        rcases hrel : o.releaseOk <;> simp [shutdownEvents]
      · rw [runIter_eq_afterDownload_of_downloadOk s o t hs hr hcompl hd]
        rcases hc : o.computeOk <;> rcases hu : o.uploadOk <;>
          rcases hfo : o.failOk <;>
            simp [runIterAfterDownload, hc, hu, hfo]
    · rw [runIter_eq_afterDownload_of_complete s o t hs hr hcompl]
      rcases hc : o.computeOk <;> rcases hu : o.uploadOk <;>
        rcases hfo : o.failOk <;>
          simp [runIterAfterDownload, hc, hu, hfo]
  · rcases hcompl : s.download_complete
    · rcases hd : o.downloadOk
      · rw [runIter_eq_shutdown_of_downloadFail s o t hs hr hcompl hd]
        simp [shutdownState]
      · rw [runIter_eq_afterDownload_of_downloadOk s o t hs hr hcompl hd,
          runIterAfterDownload_state]
    · rw [runIter_eq_afterDownload_of_complete s o t hs hr hcompl,
        runIterAfterDownload_state]

/-- Witness for C9: two empty responses then `[t0]`, as in the spec's
scenario. -/
theorem c9_acquire_never_none_witness :
    get_classifier oScenario.responses = some t0 ∧
    Event.logNoClassifier ∉ (runIter initState oScenario).2.1 ∧
    (runIter initState oScenario).1.classifier = some t0 :=
  c9_acquire_never_none 2 t0 [] [] initState oScenario rfl rfl

/-- C10: immediately before the computation stage, the environment
parameters `gene_ids` and `disease_acronyms` are set to the hyphen-joined
decimal string forms of the task's `genes` and the hyphen-joined elements
of its `diseases`, in order. -/
theorem c10_env_params (s : WState) (o : IterOracle) (t : Task)
    (hs : s.shutting_down = false)
    (hr : get_classifier o.responses = some t)
    (hd : s.download_complete = true ∨ o.downloadOk = true) :
    (runIter s o).1.env_gene_ids =
      some (String.intercalate "-" (t.genes.map toString)) ∧
    (runIter s o).1.env_disease_acronyms =
      some (String.intercalate "-" t.diseases) := by
  rcases hcompl : s.download_complete
  · rw [runIter_eq_afterDownload_of_downloadOk s o t hs hr hcompl
      (downloadOk_of_incomplete s o hd hcompl), runIterAfterDownload_state]
    exact ⟨rfl, rfl⟩
  · rw [runIter_eq_afterDownload_of_complete s o t hs hr hcompl,
      runIterAfterDownload_state]
    exact ⟨rfl, rfl⟩

/-- Witness for C10: the spec's sample task yields `gene_ids = "7157"`
and `disease_acronyms = "ACC"`. -/
theorem c10_env_params_witness :
    (runIter initState oUp).1.env_gene_ids =
      some (String.intercalate "-" (t0.genes.map toString)) ∧
    (runIter initState oUp).1.env_disease_acronyms =
      some (String.intercalate "-" t0.diseases) :=
  c10_env_params initState oUp t0 rfl rfl (Or.inr rfl)

/-- C6: for a response sequence whose first non-empty response arrives at
attempt `i` (in particular any alternation of empty and non-empty
responses), `get_classifier` returns the first element of that first
non-empty response; it sleeps once per failed attempt, the `j`-th computed
backoff interval is the bounded exponential `min (2 * 2 ^ j) 30` (factor
2, cap 30), and the actual sleep is the full-jitter draw
`u j * interval`, lying in `[0, interval]`; the interval sequence is
`expoFrom 0 _`, built afresh inside each invocation, so the backoff
restarts on every call of `get_classifier`. -/
theorem c6_backoff_with_jitter (i j : Nat) (t : Task) (ts : List Task)
    (rest : List (List Task)) (u : Nat → ℚ) (hj : j < i)
    (hu0 : 0 ≤ u j) (hu1 : u j ≤ 1) :
    get_classifier (List.replicate i [] ++ (t :: ts) :: rest) = some t ∧
    (acquireSleeps u (List.replicate i [] ++ (t :: ts) :: rest)).length = i ∧
    (expoFrom 0 i).getD j 0 = min (2 * 2 ^ j : ℚ) 30 ∧
    (acquireSleeps u (List.replicate i [] ++ (t :: ts) :: rest)).getD j 0 =
      full_jitter (u j) ((expoFrom 0 i).getD j 0) ∧
    0 ≤ (acquireSleeps u (List.replicate i [] ++ (t :: ts) :: rest)).getD j 0 ∧
    (acquireSleeps u (List.replicate i [] ++ (t :: ts) :: rest)).getD j 0 ≤
      (expoFrom 0 i).getD j 0 := by
  have he := emptiesBefore_replicate i t ts rest
  have hgetD : (expoFrom 0 i).getD j 0 = min (2 * 2 ^ j : ℚ) 30 := by
    simpa using expoFrom_getD i 0 j hj
  have hsleep : (acquireSleeps u (List.replicate i [] ++ (t :: ts) :: rest)).getD j 0 =
      full_jitter (u j) ((expoFrom 0 i).getD j 0) := by
    rw [acquireSleeps_getD u _ j (by rw [he]; exact hj), he]
  have hint0 : (0 : ℚ) ≤ (expoFrom 0 i).getD j 0 := by
    rw [hgetD]
    exact le_min (by positivity) (by norm_num)
  refine ⟨get_classifier_replicate i t ts rest, ?_, hgetD, hsleep, ?_, ?_⟩
  · rw [acquireSleeps_length, he]
  · rw [hsleep]
    exact mul_nonneg hu0 hint0
  · rw [hsleep]
    exact mul_le_of_le_one_left hint0 hu1

/-- Witness for C6: two empty responses before `[t0]`, uniform draw
`u = 1/2`, inspecting the second sleep. -/
theorem c6_backoff_with_jitter_witness :
    get_classifier (List.replicate 2 [] ++ (t0 :: []) :: []) = some t0 ∧
    (acquireSleeps (fun _ => (1 : ℚ) / 2)
      (List.replicate 2 [] ++ (t0 :: []) :: [])).length = 2 ∧
    (expoFrom 0 2).getD 1 0 = min (2 * 2 ^ 1 : ℚ) 30 ∧
    (acquireSleeps (fun _ => (1 : ℚ) / 2)
        (List.replicate 2 [] ++ (t0 :: []) :: [])).getD 1 0 =
      full_jitter ((1 : ℚ) / 2) ((expoFrom 0 2).getD 1 0) ∧
    0 ≤ (acquireSleeps (fun _ => (1 : ℚ) / 2)
        (List.replicate 2 [] ++ (t0 :: []) :: [])).getD 1 0 ∧
    (acquireSleeps (fun _ => (1 : ℚ) / 2)
        (List.replicate 2 [] ++ (t0 :: []) :: [])).getD 1 0 ≤
      (expoFrom 0 2).getD 1 0 :=
  c6_backoff_with_jitter 2 1 t0 [] [] (fun _ => (1 : ℚ) / 2) (by norm_num)
    (by norm_num) (by norm_num)

end MLWorkers
